import Mathlib

/-!
Verification of the content-schema validation layer of the repository.

The source (src/unnamed/part_002) declares, with the `zod` schema library:

  const jsProxyChapters = defineCollection({
    type: 'content',
    schema: z.object({
      title: z.string(),
      description: z.string(),
      chapterNumber: z.number(),
    }),
  });
  export const collections = { ['js-proxy']: jsProxyChapters };

We embed the front-matter values as a small JavaScript value type, a
metadata record as an association list of field name to value, and the
schema as a function from records to `Except`: on success the parsed
three-field chapter, on failure the list of validation issues, in
schema-key order, exactly as `z.object` collects them.  Zod semantics
embedded here: `z.string()` accepts any string (including the empty
string) and nothing else; `z.number()` accepts any number (including
non-integers) and nothing else; an absent key yields a "Required"
issue (modelled as `IssueKind.missingField`), while a present key of
the wrong type — including `null` — yields an invalid-type issue
(modelled as `IssueKind.typeMismatch`); unknown keys are stripped from
the output.
-/

/-- A front-matter value as parsed from a document header: a string, a
number (JavaScript numbers are modelled as rationals, which covers the
integer and floating-point literals that occur), a boolean, or null. -/
inductive JsValue where
  | vstr (s : String)
  | vnum (q : ℚ)
  | vbool (b : Bool)
  | vnull
deriving DecidableEq, Repr

/-- A metadata record: an association list from field name to value.
A name that does not occur in the list is absent from the record. -/
abbrev JsRecord := List (String × JsValue)

/-- First-match lookup of a field in a record; `none` means the field
is absent. -/
def lookupField (r : JsRecord) (name : String) : Option JsValue :=
  match r with
  | [] => none
  | (k, v) :: rest => if k = name then some v else lookupField rest name

/-- The two error kinds of the schema: a required field absent from
the record, or a field present with a value of the wrong type. -/
inductive IssueKind where
  | missingField
  | typeMismatch
deriving DecidableEq, Repr

/-- One validation issue: the offending field and the error kind. -/
structure ValidationIssue where
  field : String
  kind : IssueKind
deriving DecidableEq, Repr

/-- Check one field against `z.string()`: absent is a missing-field
issue; a present non-string value (numbers, booleans, null) is a
type-mismatch issue; any string, empty or not, is accepted unchanged. -/
def checkString (r : JsRecord) (name : String) : Except ValidationIssue String :=
  match lookupField r name with
  | none => .error ⟨name, .missingField⟩
  | some (.vstr s) => .ok s
  | some _ => .error ⟨name, .typeMismatch⟩

/-- Check one field against `z.number()`: absent is a missing-field
issue; a present non-number value (strings, booleans, null) is a
type-mismatch issue; any number, integral or not, is accepted
unchanged. -/
def checkNumber (r : JsRecord) (name : String) : Except ValidationIssue ℚ :=
  match lookupField r name with
  | none => .error ⟨name, .missingField⟩
  | some (.vnum q) => .ok q
  | some _ => .error ⟨name, .typeMismatch⟩

/-- The typed record produced on success: exactly the three schema
fields, each carrying a definite (non-null) value of its type. -/
structure Chapter where
  title : String
  description : String
  chapterNumber : ℚ
deriving DecidableEq, Repr

/-- The issues contributed by one field check: none on success, the
single issue on failure. -/
def issuesOf {α : Type} : Except ValidationIssue α → List ValidationIssue
  | .ok _ => []
  | .error e => [e]

/-- All issues of a record against the schema, in schema-key order
(title, then description, then chapterNumber), as `z.object` collects
them. -/
def validationIssues (r : JsRecord) : List ValidationIssue :=
  issuesOf (checkString r "title") ++ issuesOf (checkString r "description") ++
    issuesOf (checkNumber r "chapterNumber")

/-- Embedding of the `jsProxyChapters` schema: parse the three declared
fields; if all succeed, return the typed chapter built from exactly
those three values (unknown keys are stripped); otherwise return every
collected issue. -/
def jsProxyChapters (r : JsRecord) : Except (List ValidationIssue) Chapter :=
  match checkString r "title", checkString r "description", checkNumber r "chapterNumber" with
  | .ok t, .ok d, .ok n => .ok ⟨t, d, n⟩
  | et, ed, en => .error (issuesOf et ++ issuesOf ed ++ issuesOf en)

/-- The record carrying exactly an accepted chapter's three fields. -/
def chapterRecord (c : Chapter) : JsRecord :=
  [("title", .vstr c.title), ("description", .vstr c.description),
   ("chapterNumber", .vnum c.chapterNumber)]

/-- Validating a list of records validates each record independently. -/
def validateAll (l : List JsRecord) : List (Except (List ValidationIssue) Chapter) :=
  l.map jsProxyChapters

/-- A content document: its front-matter metadata record together with
its opaque markdown body. -/
structure ContentDocument where
  frontMatter : JsRecord
  body : String
deriving DecidableEq, Repr

/-- Modelled from the spec: the build pipeline around the schema (the
`type: 'content'` collection loader) is not part of this repository's
source; per the spec it extracts the front-matter mapping, invokes the
validator on it, and on success passes the validated record plus the
raw body text onward unmodified, on failure surfaces the error. -/
def validateDocument (d : ContentDocument) :
    Except (List ValidationIssue) (Chapter × String) :=
  match jsProxyChapters d.frontMatter with
  | .ok c => .ok (c, d.body)
  | .error es => .error es

/-- The success case of the schema, characterised field by field. -/
theorem jsProxyChapters_ok_iff (r : JsRecord) (c : Chapter) :
    jsProxyChapters r = .ok c ↔
      checkString r "title" = .ok c.title ∧
      checkString r "description" = .ok c.description ∧
      checkNumber r "chapterNumber" = .ok c.chapterNumber := by
  obtain ⟨ct, cd, cn⟩ := c
  unfold jsProxyChapters
  rcases ht : checkString r "title" with et | t <;>
    rcases hd : checkString r "description" with ed | d <;>
      rcases hn : checkNumber r "chapterNumber" with en | n <;>
        simp [issuesOf, Chapter.mk.injEq, and_comm, eq_comm]

/-- The failure case of the schema: the error is exactly the collected
issue list, and that list is nonempty. -/
theorem jsProxyChapters_error_iff (r : JsRecord) (es : List ValidationIssue) :
    jsProxyChapters r = .error es ↔ es = validationIssues r ∧ validationIssues r ≠ [] := by
  unfold jsProxyChapters validationIssues
  rcases ht : checkString r "title" with et | t <;>
    rcases hd : checkString r "description" with ed | d <;>
      rcases hn : checkNumber r "chapterNumber" with en | n <;>
        simp only [issuesOf, List.nil_append, List.append_nil, List.cons_append,
          List.singleton_append] <;>
        simp <;> exact eq_comm

/-- Validation succeeds exactly when no issue is collected. -/
theorem issuesOf_eq_nil {α : Type} (x : Except ValidationIssue α) :
    issuesOf x = [] ↔ ∃ a, x = .ok a := by
  cases x <;> simp [issuesOf]

/-- If any collected issue exists, the schema rejects the record with
exactly the collected issue list. -/
theorem jsProxyChapters_eq_error (r : JsRecord) (h : validationIssues r ≠ []) :
    jsProxyChapters r = .error (validationIssues r) :=
  (jsProxyChapters_error_iff r _).mpr ⟨rfl, h⟩

/-- An issue is collected exactly when one of the three field checks
produces it. -/
theorem mem_validationIssues_iff (r : JsRecord) (e : ValidationIssue) :
    e ∈ validationIssues r ↔
      checkString r "title" = .error e ∨ checkString r "description" = .error e ∨
        checkNumber r "chapterNumber" = .error e := by
  unfold validationIssues
  rcases ht : checkString r "title" with et | t <;>
    rcases hd : checkString r "description" with ed | d <;>
      rcases hn : checkNumber r "chapterNumber" with en | n <;>
        simp [issuesOf] <;> aesop

/-- A failing string check names its own field, and reports a missing
field exactly when the field is absent. -/
theorem checkString_error_cases (r : JsRecord) (name : String) (e : ValidationIssue)
    (h : checkString r name = .error e) :
    (e = ⟨name, .missingField⟩ ∧ lookupField r name = none) ∨
      (e = ⟨name, .typeMismatch⟩ ∧ ∃ v, lookupField r name = some v) := by
  unfold checkString at h
  rcases hl : lookupField r name with - | v <;> rw [hl] at h
  · injection h with h
    exact Or.inl ⟨h.symm, rfl⟩
  · cases v <;> simp_all

/-- A failing number check names its own field, and reports a missing
field exactly when the field is absent. -/
theorem checkNumber_error_cases (r : JsRecord) (name : String) (e : ValidationIssue)
    (h : checkNumber r name = .error e) :
    (e = ⟨name, .missingField⟩ ∧ lookupField r name = none) ∨
      (e = ⟨name, .typeMismatch⟩ ∧ ∃ v, lookupField r name = some v) := by
  unfold checkNumber at h
  rcases hl : lookupField r name with - | v <;> rw [hl] at h
  · injection h with h
    exact Or.inl ⟨h.symm, rfl⟩
  · cases v <;> simp_all

/-- A collected missing-field issue implies the named field really is
absent from the record. -/
theorem missingField_mem_absent (r : JsRecord) (e : ValidationIssue)
    (hmem : e ∈ validationIssues r) (hk : e.kind = IssueKind.missingField) :
    lookupField r e.field = none := by
  rcases (mem_validationIssues_iff r e).mp hmem with h | h | h
  · rcases checkString_error_cases _ _ _ h with ⟨rfl, hn⟩ | ⟨rfl, -⟩
    · exact hn
    · cases hk
  · rcases checkString_error_cases _ _ _ h with ⟨rfl, hn⟩ | ⟨rfl, -⟩
    · exact hn
    · cases hk
  · rcases checkNumber_error_cases _ _ _ h with ⟨rfl, hn⟩ | ⟨rfl, -⟩
    · exact hn
    · cases hk

/-- C1 counterexample: the claim says a record whose `chapterNumber` is
the non-integer number 1.5 (here 3/2) is rejected; the schema's `z.number()` only
requires a number, so the record is accepted with the value unchanged,
even though 3/2 is not an integer. -/
theorem floatChapterNumberAccepted :
    jsProxyChapters
        [("title", .vstr "Chapter"), ("description", .vstr "desc"),
         ("chapterNumber", .vnum (mkRat 3 2))] =
      .ok ⟨"Chapter", "desc", mkRat 3 2⟩ ∧ (mkRat 3 2).den ≠ 1 :=
  ⟨rfl, by decide⟩

/-- C1 (amended): for every record in which `chapterNumber` is present
but is not a number (text, boolean, or null), validation fails with a
type-mismatch issue naming `chapterNumber`; a numeric but non-integer
`chapterNumber` is accepted, since the schema checks number-ness, not
integrality. -/
theorem chapterNumber_nonNumber_typeMismatch (r : JsRecord) (v : JsValue)
    (hv : lookupField r "chapterNumber" = some v)
    (hnum : ∀ q : ℚ, v ≠ .vnum q) :
    jsProxyChapters r = .error (validationIssues r) ∧
      (⟨"chapterNumber", .typeMismatch⟩ : ValidationIssue) ∈ validationIssues r := by
  have hc : checkNumber r "chapterNumber" = .error ⟨"chapterNumber", .typeMismatch⟩ := by
    cases v with
    | vnum q => exact absurd rfl (hnum q)
    | vstr s => simp [checkNumber, hv]
    | vbool b => simp [checkNumber, hv]
    | vnull => simp [checkNumber, hv]
  have hmem : (⟨"chapterNumber", .typeMismatch⟩ : ValidationIssue) ∈ validationIssues r :=
    (mem_validationIssues_iff _ _).mpr (Or.inr (Or.inr hc))
  exact ⟨jsProxyChapters_eq_error r (List.ne_nil_of_mem hmem), hmem⟩

/-- C1 witness: the spec's own scenario, `chapterNumber` given as the
text "four", is rejected with a type mismatch on `chapterNumber`. -/
theorem chapterNumber_nonNumber_typeMismatch_witness :
    jsProxyChapters
        [("title", .vstr "Chapter"), ("description", .vstr "desc"),
         ("chapterNumber", .vstr "four")] =
      .error (validationIssues
        [("title", .vstr "Chapter"), ("description", .vstr "desc"),
         ("chapterNumber", .vstr "four")]) ∧
      (⟨"chapterNumber", .typeMismatch⟩ : ValidationIssue) ∈ validationIssues
        [("title", .vstr "Chapter"), ("description", .vstr "desc"),
         ("chapterNumber", .vstr "four")] :=
  chapterNumber_nonNumber_typeMismatch _ _ rfl (fun q h => by cases h)

/-- C2 counterexample: the claim says a record with an empty `title` is
not accepted; the schema's `z.string()` places no non-emptiness
requirement, so the record is accepted. -/
theorem emptyTitleAccepted :
    jsProxyChapters
        [("title", .vstr ""), ("description", .vstr "desc"),
         ("chapterNumber", .vnum 1)] =
      .ok ⟨"", "desc", 1⟩ := rfl

/-- C2 (amended): a record whose `title` or `description` is the empty
string is accepted whenever the three schema fields are present with
the right types, and the empty string is carried to the output
unchanged: the schema requires only string type, not non-emptiness. -/
theorem emptyString_fields_accepted (r : JsRecord) (t d : String) (n : ℚ)
    (_hempty : t = "" ∨ d = "")
    (ht : lookupField r "title" = some (.vstr t))
    (hd : lookupField r "description" = some (.vstr d))
    (hn : lookupField r "chapterNumber" = some (.vnum n)) :
    jsProxyChapters r = .ok ⟨t, d, n⟩ := by
  apply (jsProxyChapters_ok_iff r _).mpr
  refine ⟨?_, ?_, ?_⟩ <;> simp [checkString, checkNumber, ht, hd, hn]

/-- C2 witness: a record with a non-empty title and an empty
description is accepted, the empty description unchanged. -/
theorem emptyString_fields_accepted_witness :
    jsProxyChapters
        [("title", .vstr "T"), ("description", .vstr ""),
         ("chapterNumber", .vnum 2)] =
      .ok ⟨"T", "", 2⟩ :=
  emptyString_fields_accepted
    [("title", .vstr "T"), ("description", .vstr ""), ("chapterNumber", .vnum 2)]
    "T" "" 2 (Or.inr rfl) rfl rfl rfl

/-- C3: every record whose `title` and `description` are non-empty
strings and whose `chapterNumber` is an integer is accepted, and the
output carries exactly the input values of the three fields, with no
coercion, trimming, or other transformation. -/
theorem valid_record_accepted_unchanged (r : JsRecord) (t d : String) (n : ℤ)
    (_h₁ : t ≠ "") (_h₂ : d ≠ "")
    (ht : lookupField r "title" = some (.vstr t))
    (hd : lookupField r "description" = some (.vstr d))
    (hn : lookupField r "chapterNumber" = some (.vnum (n : ℚ))) :
    jsProxyChapters r = .ok ⟨t, d, (n : ℚ)⟩ := by
  apply (jsProxyChapters_ok_iff r _).mpr
  refine ⟨?_, ?_, ?_⟩ <;> simp [checkString, checkNumber, ht, hd, hn]

/-- C3 witness: the spec's scenario 1, the front matter of the
"Using Reflect" chapter, is accepted with output identical to input. -/
theorem valid_record_accepted_unchanged_witness :
    "Using Reflect" ≠ "" ∧
      jsProxyChapters
          [("title", .vstr "Using Reflect"),
           ("description", .vstr "Use Reflect API to simplify some Proxy handlers"),
           ("chapterNumber", .vnum ((4 : ℤ) : ℚ))] =
        .ok ⟨"Using Reflect", "Use Reflect API to simplify some Proxy handlers",
             ((4 : ℤ) : ℚ)⟩ :=
  ⟨by decide,
   valid_record_accepted_unchanged _ _ _ 4 (by decide) (by decide) rfl rfl rfl⟩

/-- C4: every record from which `title`, `description`, or
`chapterNumber` is absent is rejected, and the issue list contains a
missing-field issue naming the absent field. -/
theorem missing_field_rejected (r : JsRecord) (f : String)
    (hf : f = "title" ∨ f = "description" ∨ f = "chapterNumber")
    (habs : lookupField r f = none) :
    jsProxyChapters r = .error (validationIssues r) ∧
      (⟨f, .missingField⟩ : ValidationIssue) ∈ validationIssues r := by
  have hmem : (⟨f, .missingField⟩ : ValidationIssue) ∈ validationIssues r := by
    rcases hf with rfl | rfl | rfl
    · exact (mem_validationIssues_iff _ _).mpr (Or.inl (by simp [checkString, habs]))
    · exact (mem_validationIssues_iff _ _).mpr
        (Or.inr (Or.inl (by simp [checkString, habs])))
    · exact (mem_validationIssues_iff _ _).mpr
        (Or.inr (Or.inr (by simp [checkNumber, habs])))
  exact ⟨jsProxyChapters_eq_error r (List.ne_nil_of_mem hmem), hmem⟩

/-- C4 witness: the spec's scenario 2, a record without `description`,
is rejected with a missing-field issue naming `description`. -/
theorem missing_field_rejected_witness :
    jsProxyChapters [("title", .vstr "Using Reflect"), ("chapterNumber", .vnum 4)] =
        .error (validationIssues
          [("title", .vstr "Using Reflect"), ("chapterNumber", .vnum 4)]) ∧
      (⟨"description", .missingField⟩ : ValidationIssue) ∈ validationIssues
        [("title", .vstr "Using Reflect"), ("chapterNumber", .vnum 4)] :=
  missing_field_rejected _ "description" (Or.inr (Or.inl rfl)) rfl

/-- C5: an accepted output is exactly the three schema fields with the
record's own values — the `Chapter` type carries no other field and no
null — and acceptance does not depend on any extra field in the
record, which is simply stripped from the output. -/
theorem output_exactly_schema_fields (r : JsRecord) (t : String) (d : String) (n : ℚ)
    (ht : lookupField r "title" = some (.vstr t))
    (hd : lookupField r "description" = some (.vstr d))
    (hn : lookupField r "chapterNumber" = some (.vnum n)) :
    jsProxyChapters r = .ok ⟨t, d, n⟩ ∧
      ∀ c : Chapter, jsProxyChapters r = .ok c → c = ⟨t, d, n⟩ := by
  have hok : jsProxyChapters r = .ok ⟨t, d, n⟩ := by
    apply (jsProxyChapters_ok_iff r _).mpr
    refine ⟨?_, ?_, ?_⟩ <;> simp [checkString, checkNumber, ht, hd, hn]
  refine ⟨hok, fun c hc => ?_⟩
  rw [hok] at hc
  injection hc with hc
  exact hc.symm

/-- C5 witness: a record carrying an extra field beyond the three
schema fields is accepted, and the extra field is absent from the
output. -/
theorem output_exactly_schema_fields_witness :
    jsProxyChapters
        [("title", .vstr "Iteration with Proxies"), ("description", .vstr "desc"),
         ("chapterNumber", .vnum 2), ("draft", .vbool true)] =
      .ok ⟨"Iteration with Proxies", "desc", 2⟩ :=
  (output_exactly_schema_fields
    [("title", .vstr "Iteration with Proxies"), ("description", .vstr "desc"),
     ("chapterNumber", .vnum 2), ("draft", .vbool true)]
    "Iteration with Proxies" "desc" 2 rfl rfl rfl).1

/-- C6: validation is all-or-nothing: for every record the schema
either accepts with a fully typed chapter on which all three field
checks succeeded, or rejects with a nonempty issue list and no output
record; there is nothing in between, and the validator, a pure
function, changes no state on rejection. -/
theorem validation_all_or_nothing (r : JsRecord) :
    (∃ c : Chapter, jsProxyChapters r = .ok c ∧
        checkString r "title" = .ok c.title ∧
        checkString r "description" = .ok c.description ∧
        checkNumber r "chapterNumber" = .ok c.chapterNumber) ∨
      (jsProxyChapters r = .error (validationIssues r) ∧ validationIssues r ≠ []) := by
  by_cases h : validationIssues r = []
  · left
    have h3 := h
    unfold validationIssues at h3
    rw [List.append_eq_nil, List.append_eq_nil] at h3
    obtain ⟨⟨h1, h2⟩, h4⟩ := h3
    obtain ⟨t, ht⟩ := (issuesOf_eq_nil _).mp h1
    obtain ⟨d, hd⟩ := (issuesOf_eq_nil _).mp h2
    obtain ⟨n, hn⟩ := (issuesOf_eq_nil _).mp h4
    exact ⟨⟨t, d, n⟩, (jsProxyChapters_ok_iff _ _).mpr ⟨ht, hd, hn⟩, ht, hd, hn⟩
  · exact Or.inr ⟨jsProxyChapters_eq_error r h, h⟩

/-- C7: validation is deterministic — the validator is a pure function
of the record, so re-running it yields the same outcome — and
idempotent: re-validating the record carrying an accepted chapter's
own fields accepts it again with the identical output. -/
theorem validation_deterministic_idempotent (r : JsRecord) (c : Chapter)
    (h : jsProxyChapters r = .ok c) :
    jsProxyChapters r = jsProxyChapters r ∧
      jsProxyChapters (chapterRecord c) = .ok c := by
  refine ⟨rfl, ?_⟩
  obtain ⟨t, d, n⟩ := c
  apply (jsProxyChapters_ok_iff _ _).mpr
  refine ⟨?_, ?_, ?_⟩ <;> simp [checkString, checkNumber, chapterRecord, lookupField]

/-- C7 witness: the front matter of the "Proxies in Action" chapter,
validated twice, yields the same accepted output both times. -/
theorem validation_deterministic_idempotent_witness :
    jsProxyChapters
        [("title", .vstr "Proxies in Action"),
         ("description", .vstr "More examples on Proxies"),
         ("chapterNumber", .vnum 3)] =
      jsProxyChapters
        [("title", .vstr "Proxies in Action"),
         ("description", .vstr "More examples on Proxies"),
         ("chapterNumber", .vnum 3)] ∧
      jsProxyChapters
          (chapterRecord ⟨"Proxies in Action", "More examples on Proxies", 3⟩) =
        .ok ⟨"Proxies in Action", "More examples on Proxies", 3⟩ :=
  validation_deterministic_idempotent _ _ rfl

/-- C8: validation outcomes are order-independent across documents:
validating a permuted list of records yields the correspondingly
permuted outcomes, and each position's outcome is the validation of
that record alone — no record's validation reads anything produced by
another's. -/
theorem validation_order_independent (l₁ l₂ : List JsRecord) (h : l₁.Perm l₂) :
    (validateAll l₁).Perm (validateAll l₂) ∧
      ∀ i : ℕ, (validateAll l₁)[i]? = (l₁[i]?).map jsProxyChapters :=
  ⟨h.map jsProxyChapters, fun i => by simp [validateAll]⟩

/-- C8 witness: swapping a valid and an invalid record swaps their two
outcomes, and the first position's outcome is that record's own
validation. -/
theorem validation_order_independent_witness :
    (validateAll
        [[("title", .vstr "A"), ("description", .vstr "a"), ("chapterNumber", .vnum 1)],
         []]).Perm
      (validateAll
        [[],
         [("title", .vstr "A"), ("description", .vstr "a"), ("chapterNumber", .vnum 1)]]) ∧
      (validateAll
        [[("title", .vstr "A"), ("description", .vstr "a"), ("chapterNumber", .vnum 1)],
         []])[0]? =
        (([[("title", .vstr "A"), ("description", .vstr "a"), ("chapterNumber", .vnum 1)],
           []] : List JsRecord)[0]?).map jsProxyChapters :=
  ⟨(validation_order_independent
      [[("title", .vstr "A"), ("description", .vstr "a"), ("chapterNumber", .vnum 1)], []]
      [[], [("title", .vstr "A"), ("description", .vstr "a"), ("chapterNumber", .vnum 1)]]
      (List.Perm.swap _ _ _)).1,
   (validation_order_independent
      [[("title", .vstr "A"), ("description", .vstr "a"), ("chapterNumber", .vnum 1)], []]
      [[], [("title", .vstr "A"), ("description", .vstr "a"), ("chapterNumber", .vnum 1)]]
      (List.Perm.swap _ _ _)).2 0⟩

/-- C9: the outcome of validating a document depends only on its
front-matter record, never on its body: two documents with identical
front matter validate to the same chapter or the same error, and on
acceptance the body is passed onward unmodified. -/
theorem validation_ignores_body (d₁ d₂ : ContentDocument)
    (h : d₁.frontMatter = d₂.frontMatter) :
    Except.map Prod.fst (validateDocument d₁) = Except.map Prod.fst (validateDocument d₂) ∧
      Except.map Prod.snd (validateDocument d₁) =
        Except.map (fun _ => d₁.body) (validateDocument d₁) := by
  unfold validateDocument
  rw [h]
  rcases hj : jsProxyChapters d₂.frontMatter with es | c <;> simp [hj, Except.map]

/-- C9 witness: two documents with the same front matter and different
bodies yield the same accepted chapter, each carrying its own body
unmodified. -/
theorem validation_ignores_body_witness :
    Except.map Prod.fst (validateDocument
        ⟨[("title", .vstr "T"), ("description", .vstr "D"), ("chapterNumber", .vnum 5)],
         "body one"⟩) =
      Except.map Prod.fst (validateDocument
        ⟨[("title", .vstr "T"), ("description", .vstr "D"), ("chapterNumber", .vnum 5)],
         "body two"⟩) ∧
      Except.map Prod.snd (validateDocument
          ⟨[("title", .vstr "T"), ("description", .vstr "D"), ("chapterNumber", .vnum 5)],
           "body one"⟩) =
        Except.map (fun _ => "body one") (validateDocument
          ⟨[("title", .vstr "T"), ("description", .vstr "D"), ("chapterNumber", .vnum 5)],
           "body one"⟩) :=
  validation_ignores_body _ _ rfl

/-- C10: a schema field bound to null is reported as a type mismatch
naming that field, never as a missing field; a missing-field issue
arises only for a field that is entirely absent from the record. -/
theorem null_field_typeMismatch_not_missing (r : JsRecord) (f : String)
    (hf : f = "title" ∨ f = "description" ∨ f = "chapterNumber")
    (hnull : lookupField r f = some .vnull) :
    jsProxyChapters r = .error (validationIssues r) ∧
      (⟨f, .typeMismatch⟩ : ValidationIssue) ∈ validationIssues r ∧
      (⟨f, .missingField⟩ : ValidationIssue) ∉ validationIssues r ∧
      ∀ e ∈ validationIssues r, e.kind = IssueKind.missingField →
        lookupField r e.field = none := by
  have hmem : (⟨f, .typeMismatch⟩ : ValidationIssue) ∈ validationIssues r := by
    rcases hf with rfl | rfl | rfl
    · exact (mem_validationIssues_iff _ _).mpr (Or.inl (by simp [checkString, hnull]))
    · exact (mem_validationIssues_iff _ _).mpr
        (Or.inr (Or.inl (by simp [checkString, hnull])))
    · exact (mem_validationIssues_iff _ _).mpr
        (Or.inr (Or.inr (by simp [checkNumber, hnull])))
  refine ⟨jsProxyChapters_eq_error r (List.ne_nil_of_mem hmem), hmem, ?_, ?_⟩
  · intro hmm
    exact absurd (missingField_mem_absent r _ hmm rfl) (by simp [hnull])
  · exact fun e hm hk => missingField_mem_absent r e hm hk

/-- C10 witness: a record whose `title` is null is rejected with a
type mismatch on `title` and no missing-field issue on `title`. -/
theorem null_field_typeMismatch_not_missing_witness :
    jsProxyChapters
        [("title", .vnull), ("description", .vstr "d"), ("chapterNumber", .vnum 1)] =
        .error (validationIssues
          [("title", .vnull), ("description", .vstr "d"), ("chapterNumber", .vnum 1)]) ∧
      (⟨"title", .typeMismatch⟩ : ValidationIssue) ∈ validationIssues
        [("title", .vnull), ("description", .vstr "d"), ("chapterNumber", .vnum 1)] ∧
      (⟨"title", .missingField⟩ : ValidationIssue) ∉ validationIssues
        [("title", .vnull), ("description", .vstr "d"), ("chapterNumber", .vnum 1)] :=
  let h := null_field_typeMismatch_not_missing
    [("title", .vnull), ("description", .vstr "d"), ("chapterNumber", .vnum 1)]
    "title" (Or.inl rfl) rfl
  ⟨h.1, h.2.1, h.2.2.1⟩
